import Mathlib

/-!
Shallow embedding of the invoice-extractor repository.

Source files embedded: `main.py` (brand detection), `validators.py`
(schema validation), `extractors_zomato.py`, `extractors_amazon.py`,
`extractors_flipkart.py`.

Modelling conventions:
* Python machine floats are modelled as exact rationals (`ℚ`); all the
  constants exercised by the claims (`0.0`, `12.5`, `112.5`, `25/2`, ...)
  are exactly representable, so no rounding gap arises.
* A PDF table cell is `Option String` (`none` = Python `None`);
  a table is a list of rows, a page holds a list of tables.
* Fallible Python code (`float(...)`, `df.iloc[0]` on an empty frame)
  is embedded with `Option` / `Except`.
-/

namespace InvoiceX

/-- Substring occurrence on character lists: `need` occurs contiguously in
the scanned list (Python `need in hay`). -/
def listContains (need : List Char) : List Char → Bool
  | [] => need.isEmpty
  | c :: rest => need.isPrefixOf (c :: rest) || listContains need rest

/-- Python `need in hay` on strings. -/
def containsSubstr (hay need : String) : Bool :=
  listContains need.data hay.data

/-- Python `str(cell)` applied to an optional table cell: `None` renders as
the literal string `"None"`. -/
def pyStr : Option String → String
  | none => "None"
  | some s => s

/-- ASCII whitespace, as stripped by Python `str.strip()` / `float(...)`. -/
def isSpaceChar (c : Char) : Bool :=
  c == ' ' || c == '\t' || c == '\n' || c == '\r'

/-- Python `s.strip()` on a character list. -/
def trimChars (cs : List Char) : List Char :=
  ((cs.dropWhile isSpaceChar).reverse.dropWhile isSpaceChar).reverse

/-- Python `s.strip()` on strings (kernel-reducible). -/
def pyTrim (s : String) : String := String.mk (trimChars s.data)

/-- ASCII lower-casing of one character (Python `str.lower()` on the ASCII
texts this repository handles). -/
def lowerChar (c : Char) : Char :=
  if 65 ≤ c.toNat && c.toNat ≤ 90 then Char.ofNat (c.toNat + 32) else c

/-- Python `s.lower()` (kernel-reducible). -/
def pyLower (s : String) : String := String.mk (s.data.map lowerChar)

/-- Decimal value of a digit run (most significant first). -/
def digitsVal (ds : List Char) : ℕ :=
  ds.foldl (fun a c => a * 10 + (c.toNat - 48)) 0

/-- Core of Python `float(...)` on an unsigned decimal literal:
`"12"`, `"12."`, `".5"`, `"12.5"` parse; `""`, `"."`, `"abc"`, `"1.2.3"`
fail. -/
def parseDecCore (cs : List Char) : Option ℚ :=
  let ip := cs.takeWhile Char.isDigit
  let r1 := cs.dropWhile Char.isDigit
  match r1 with
  | [] => if ip.isEmpty then none else some ((digitsVal ip : ℚ))
  | '.' :: fp =>
      if fp.all Char.isDigit && !(ip.isEmpty && fp.isEmpty) then
        some ((digitsVal ip : ℚ) + (digitsVal fp : ℚ) / ((10 : ℚ) ^ fp.length))
      else none
  | _ => none

/-- Python `float(s)` on the decimal-literal fragment the repository
exercises: surrounding whitespace is stripped, an optional sign is allowed,
and anything else (letters, repeated dots, the bare dot) raises, modelled
as `none`. -/
def parsePyFloat (s : String) : Option ℚ :=
  match trimChars s.data with
  | '-' :: cs => (parseDecCore cs).map (fun q => -q)
  | '+' :: cs => parseDecCore cs
  | cs => parseDecCore cs

/-! ## Brand detection (`main.py`, `detect_brand`) -/

/-- First rule of `detect_brand`: `"blinkit" in text or "zomato hyperpure" in text`. -/
def ruleBlinkit (t : String) : Bool :=
  containsSubstr t "blinkit" || containsSubstr t "zomato hyperpure"

/-- Second rule: `"flipkart" in text or "shopler estore" in text`. -/
def ruleFlipkart (t : String) : Bool :=
  containsSubstr t "flipkart" || containsSubstr t "shopler estore"

/-- Third rule: `"amazon" in text or "amazon seller" in text`. -/
def ruleAmazon (t : String) : Bool :=
  containsSubstr t "amazon" || containsSubstr t "amazon seller"

/-- Fourth rule: `"instamart" in text or "b2c" in text or ("swiggy" in text and "invoice" in text)`. -/
def ruleInstamart (t : String) : Bool :=
  containsSubstr t "instamart" || containsSubstr t "b2c" ||
    (containsSubstr t "swiggy" && containsSubstr t "invoice")

/-- Fifth rule: `("zomato" in text or "ethernal" in text) and "restaurant" in text`. -/
def ruleZomato (t : String) : Bool :=
  (containsSubstr t "zomato" || containsSubstr t "ethernal") &&
    containsSubstr t "restaurant"

/-- `main.py::detect_brand`: ordered keyword rules over the lowercased full
text; the Python `None` fall-through is `Option.none`. -/
def detect_brand (text_lower : String) : Option String :=
  if ruleBlinkit text_lower then some "blinkit"
  else if ruleFlipkart text_lower then some "flipkart"
  else if ruleAmazon text_lower then some "amazon"
  else if ruleInstamart text_lower then some "instamart"
  else if ruleZomato text_lower then some "zomato"
  else none

/-! ## Schema validation (`validators.py`, `InvoiceData`) -/

/-- A raw Python value handed to the validator: `None`, a string, or a
number (float). -/
inductive RawVal
  | vnone
  | vstr (s : String)
  | vnum (q : ℚ)
  deriving DecidableEq, Repr

/-- Python truthiness of a raw value (`if v` in `convert_to_float`):
`None` and `""` and `0.0` are falsy. -/
def isFalsy : RawVal → Bool
  | .vnone => true
  | .vstr s => s.data.isEmpty
  | .vnum q => q == 0

/-- Python `float(v)`: fails (`TypeError`) on `None`, parses a string, and
is the identity on a number. -/
def pyFloat : RawVal → Option ℚ
  | .vnone => none
  | .vstr s => parsePyFloat s
  | .vnum q => some q

/-- `validators.py::InvoiceData.convert_to_float`:
`try: return float(v) if v else 0.0 except: return 0.0`. -/
def convert_to_float (v : RawVal) : ℚ :=
  if isFalsy v then 0 else (pyFloat v).getD 0

/-- The raw field map handed to the validator (a Python dict). -/
abbrev FieldMap := List (String × RawVal)

/-- Dict lookup. -/
def lookupF (m : FieldMap) (k : String) : Option RawVal :=
  List.lookup k m

/-- Pydantic v1 lax coercion of a number into a `str` field (any string
rendering works for the claims; none of them feeds a number to a string
field). -/
def ratStr (q : ℚ) : String := toString q

/-- Validation of one plain (non-Optional) `str` field: absent keys take
the schema default, a string passes verbatim, a number coerces; the `None`
case is rejected by the guard in `validateInvoice` before this value is
used (pydantic: "none is not an allowed value"). -/
def strField (m : FieldMap) (k dflt : String) : String :=
  match lookupF m k with
  | none => dflt
  | some .vnone => dflt
  | some (.vstr s) => s
  | some (.vnum q) => ratStr q

/-- Validation of the one `Optional[str]` field (`order_date`): absent
keys take the default `""`, an explicit `None` is kept as `none`. -/
def optStrField (m : FieldMap) (k dflt : String) : Option String :=
  match lookupF m k with
  | none => some dflt
  | some .vnone => none
  | some (.vstr s) => some s
  | some (.vnum q) => some (ratStr q)

/-- Validation of a numeric field (`total_tax` / `total_amount`): the
`pre=True` validator `convert_to_float` runs on any provided value; an
absent key takes the schema default `0.0` (defaults skip validators). -/
def numFieldV (m : FieldMap) (k : String) : ℚ :=
  match lookupF m k with
  | none => 0
  | some v => convert_to_float v

/-- A provided value is acceptable for a plain `str` field exactly when it
is not `None`. -/
def plainStrOk : Option RawVal → Bool
  | some .vnone => false
  | some (.vstr _) => true
  | some (.vnum _) => true
  | none => true

/-- The 19 plain (non-Optional) string fields of `InvoiceData`. -/
def strKeys : List String :=
  ["invoice_type", "invoice_number", "invoice_date", "order_number",
   "seller_name", "seller_address", "seller_info", "seller_gst",
   "seller_pan", "fssai_license", "billing_address", "shipping_address",
   "billing_state_code", "shipping_state_code", "place_of_supply",
   "place_of_delivery", "invoice_details", "amount_in_words",
   "reverse_charge"]

/-- `validators.py::InvoiceData`: the canonical invoice record.
`order_date` is declared `Optional[str]` in the source, hence
`Option String` here; the two totals are floats. -/
structure InvoiceData where
  invoice_type : String
  invoice_number : String
  invoice_date : String
  order_number : String
  order_date : Option String
  seller_name : String
  seller_address : String
  seller_info : String
  seller_gst : String
  seller_pan : String
  fssai_license : String
  billing_address : String
  shipping_address : String
  billing_state_code : String
  shipping_state_code : String
  place_of_supply : String
  place_of_delivery : String
  invoice_details : String
  amount_in_words : String
  total_tax : ℚ
  total_amount : ℚ
  reverse_charge : String
  deriving DecidableEq, Repr

/-- Pydantic v1 validation of `InvoiceData(**m)`: every field validates
independently; the only failing case in this schema is an explicit `None`
for a plain `str` field (raises `ValidationError`, modelled as `.error`).
Otherwise the record is built field by field with the schema defaults of
`validators.py`. -/
def validateInvoice (m : FieldMap) : Except String InvoiceData :=
  if strKeys.all (fun k => plainStrOk (lookupF m k)) then
    .ok
      { invoice_type := strField m "invoice_type" "Tax Invoice"
        invoice_number := strField m "invoice_number" ""
        invoice_date := strField m "invoice_date" ""
        order_number := strField m "order_number" ""
        order_date := optStrField m "order_date" ""
        seller_name := strField m "seller_name" ""
        seller_address := strField m "seller_address" ""
        seller_info := strField m "seller_info" ""
        seller_gst := strField m "seller_gst" ""
        seller_pan := strField m "seller_pan" ""
        fssai_license := strField m "fssai_license" ""
        billing_address := strField m "billing_address" ""
        shipping_address := strField m "shipping_address" ""
        billing_state_code := strField m "billing_state_code" ""
        shipping_state_code := strField m "shipping_state_code" ""
        place_of_supply := strField m "place_of_supply" ""
        place_of_delivery := strField m "place_of_delivery" ""
        invoice_details := strField m "invoice_details" ""
        amount_in_words := strField m "amount_in_words" ""
        total_tax := numFieldV m "total_tax"
        total_amount := numFieldV m "total_amount"
        reverse_charge := strField m "reverse_charge" "No" }
  else .error "validation error: none is not an allowed value"

/-- The field values of a validated record, as a field map again
(`record.dict()`): strings stay strings, `order_date = None` round-trips
to `None`, the totals are numbers. -/
def toFieldMap (r : InvoiceData) : FieldMap :=
  [("invoice_type", .vstr r.invoice_type),
   ("invoice_number", .vstr r.invoice_number),
   ("invoice_date", .vstr r.invoice_date),
   ("order_number", .vstr r.order_number),
   ("order_date", match r.order_date with | some s => .vstr s | none => .vnone),
   ("seller_name", .vstr r.seller_name),
   ("seller_address", .vstr r.seller_address),
   ("seller_info", .vstr r.seller_info),
   ("seller_gst", .vstr r.seller_gst),
   ("seller_pan", .vstr r.seller_pan),
   ("fssai_license", .vstr r.fssai_license),
   ("billing_address", .vstr r.billing_address),
   ("shipping_address", .vstr r.shipping_address),
   ("billing_state_code", .vstr r.billing_state_code),
   ("shipping_state_code", .vstr r.shipping_state_code),
   ("place_of_supply", .vstr r.place_of_supply),
   ("place_of_delivery", .vstr r.place_of_delivery),
   ("invoice_details", .vstr r.invoice_details),
   ("amount_in_words", .vstr r.amount_in_words),
   ("total_tax", .vnum r.total_tax),
   ("total_amount", .vnum r.total_amount),
   ("reverse_charge", .vstr r.reverse_charge)]

/-- Projection used by the C3 counterexample: the `order_date` of a
successfully validated record. -/
def orderDateOf : Except String InvoiceData → Option (Option String)
  | .ok r => some r.order_date
  | .error _ => none

/-! ## PDF tables -/

/-- One table cell (`None` or a string). -/
abbrev Cell := Option String

/-- One table row. -/
abbrev Row := List Cell

/-- One extracted table: ordered rows of ordered cells. -/
abbrev Table := List Row

/-- Number of columns of `pd.DataFrame(table)`: the longest row length. -/
def ncols (t : Table) : ℕ := (t.map List.length).foldl max 0

/-- `pd.DataFrame` pads each short row with `None` on the right. -/
def padRow (n : ℕ) (r : Row) : Row := r ++ List.replicate (n - r.length) none

/-- The rectangular frame `pd.DataFrame(table)`. -/
def padTable (t : Table) : Table := t.map (padRow (ncols t))

/-- `df.dropna(how="all")`: keep a row iff some cell is non-null. -/
def dropAllNone (t : Table) : Table := t.filter (fun r => r.any Option.isSome)

/-! ## Zomato extractor (`extractors_zomato.py`) -/

/-- `extractors_zomato.py::safe_float`: `None` gives `0.0`; otherwise drop
every `%` and `,`, strip, and parse, with parse failure giving `0.0`. -/
def safe_float : Cell → ℚ
  | none => 0
  | some s =>
      (parsePyFloat (String.mk (s.data.filter
        (fun ch => ch != '%' && ch != ',')))).getD 0

/-- Round-half-to-even to an integer (Python `round` tie behaviour). -/
def halfEvenInt (q : ℚ) : ℤ :=
  let f := ⌊q⌋
  let r := q - f
  if r < 1 / 2 then f
  else if 1 / 2 < r then f + 1
  else if 2 ∣ f then f else f + 1

/-- Python `round(x, 2)` on the exact rational model. -/
def pyRound2 (q : ℚ) : ℚ := (halfEvenInt (q * 100) : ℚ) / 100

/-- One Zomato line item as appended by `extract_table_and_totals`
(the description keeps the raw cell; `Qty` is the literal 1). -/
structure ZItem where
  slNo : ℕ
  descr : Cell
  unitPrice : ℚ
  discount : ℚ
  qty : ℚ
  netAmount : ℚ
  taxRate : String
  taxType : String
  taxAmount : ℚ
  totalAmount : ℚ
  deriving DecidableEq, Repr

/-- The columns resolved by `find_col` (first header cell containing all
the key substrings). A `none` column accessed on a data row would raise
`KeyError` in Python; no claim reaches that case, and `cellAt` renders it
as a null cell. -/
structure ZCols where
  part : Option ℕ
  gross : Option ℕ
  disc : Option ℕ
  net : Option ℕ
  cgstR : Option ℕ
  cgstA : Option ℕ
  sgstR : Option ℕ
  sgstA : Option ℕ
  total : Option ℕ
  deriving Repr

/-- `row[col]` for a resolved column index. -/
def cellAt (r : Row) : Option ℕ → Cell
  | none => none
  | some i => r.getD i none

/-- Loop state of the Zomato row iteration. -/
structure ZAcc where
  items : List ZItem
  sl : ℕ
  net : ℚ
  tax : ℚ
  total : ℚ
  deriving DecidableEq, Repr

/-- The line item built from one ordinary row. -/
def mkZItem (cols : ZCols) (sl : ℕ) (row : Row) : ZItem :=
  { slNo := sl
    descr := cellAt row cols.part
    unitPrice := safe_float (cellAt row cols.gross)
    discount := safe_float (cellAt row cols.disc)
    qty := 1
    netAmount := safe_float (cellAt row cols.net)
    taxRate := pyStr (cellAt row cols.cgstR) ++ " + " ++ pyStr (cellAt row cols.sgstR)
    taxType := "CGST+SGST"
    taxAmount := safe_float (cellAt row cols.cgstA) + safe_float (cellAt row cols.sgstA)
    totalAmount := safe_float (cellAt row cols.total) }

/-- One iteration of the Zomato row loop. A `"total value"` row records
net/total and `tax = round(total - net, 2)` and is itself skipped (Python
`continue` — it does not `break`); an `"item(s) total"` row is skipped; a
blank particulars cell is skipped; anything else is appended. -/
def zstep (cols : ZCols) (acc : ZAcc) (row : Row) : ZAcc :=
  let part := pyLower (pyStr (cellAt row cols.part))
  if containsSubstr part "total value" then
    let n := safe_float (cellAt row cols.net)
    let tv := safe_float (cellAt row cols.total)
    { acc with net := n, total := tv, tax := pyRound2 (tv - n) }
  else if containsSubstr part "item(s) total" then acc
  else if (trimChars part.data).isEmpty then acc
  else { acc with items := acc.items ++ [mkZItem cols acc.sl row], sl := acc.sl + 1 }

/-- The full Zomato row loop over the data rows. -/
def processRows (cols : ZCols) (rows : List Row) (acc : ZAcc) : ZAcc :=
  rows.foldl (zstep cols) acc

/-- `find_col`: the first column whose (lowercased) header name contains
every key. -/
def findCol (header : List String) (keys : List String) : Option ℕ :=
  ((header.enum).find? (fun p => keys.all (fun k => containsSubstr p.2 k))).map
    (fun p => p.1)

/-- Result quadruple of `extract_table_and_totals`. -/
structure ZOut where
  items : List ZItem
  net : ℚ
  tax : ℚ
  total : ℚ
  deriving DecidableEq, Repr

/-- Processing of one candidate table: `none` means the Python loop falls
through to the next table (`continue`). The empty-after-dropna case would
raise `IndexError` at `df.iloc[0]` in Python; no claim reaches it. -/
def zProcessTable (t : Table) : Option ZOut :=
  let rows := dropAllNone (padTable t)
  if ncols t < 6 then none
  else
    match rows with
    | [] => none
    | hrow :: body =>
      let header := hrow.map (fun c => pyLower (pyStr c))
      if containsSubstr (String.intercalate " " header) "particulars" then
        let cols : ZCols :=
          { part := findCol header ["particular"]
            gross := findCol header ["gross"]
            disc := findCol header ["discount"]
            net := findCol header ["net"]
            cgstR := findCol header ["cgst", "rate"]
            cgstA := findCol header ["cgst", "inr"]
            sgstR := findCol header ["sgst", "rate"]
            sgstA := findCol header ["sgst", "inr"]
            total := findCol header ["total"] }
        let fin := processRows cols body ⟨[], 1, 0, 0, 0⟩
        some ⟨fin.items, fin.net, fin.tax, fin.total⟩
      else none

/-- `extractors_zomato.py::extract_table_and_totals`: the first table (in
page order) with at least 6 columns and a `particulars` header is
processed and returned; if none qualifies the function returns the empty
frame and zero totals. -/
def extract_table_and_totals (pages : List (List Table)) : ZOut :=
  ((pages.flatten).findSome? zProcessTable).getD ⟨[], 0, 0, 0⟩

/-! ## Amazon totals extractor (`extractors_amazon.py`) -/

/-- Python truthiness of a cell (`len([c for c in row if c])` counts
non-`None`, non-empty cells). -/
def truthyCell : Cell → Bool
  | none => false
  | some s => !s.data.isEmpty

/-- `max_cols`: the largest per-row count of truthy cells. -/
def maxCols (t : Table) : ℕ :=
  (t.map (fun r => (r.filter truthyCell).length)).foldl max 0

/-- Python `max(tables, key=len)`: the first table of maximal row count. -/
def maxByLen (ts : List Table) : Table :=
  ts.foldl (fun best u => if u.length > best.length then u else best)
    (ts.headD [])

/-- Character class of the regex `[\d.]+`. -/
def isNumDot (c : Char) : Bool := c.isDigit || c == '.'

/-- Fuelled scanner for `re.findall(r"[\d.]+", s)`: maximal runs of
digits/dots (fuel = input length keeps it structural). -/
def numDotRunsF : ℕ → List Char → List String
  | 0, _ => []
  | _, [] => []
  | fuel + 1, c :: rest =>
    if isNumDot c then
      String.mk (c :: rest.takeWhile isNumDot) ::
        numDotRunsF fuel (rest.dropWhile isNumDot)
    else numDotRunsF fuel rest

/-- `re.findall(r"[\d.]+", s)`. -/
def findNumDot (s : String) : List String := numDotRunsF s.data.length s.data

/-- `float(val[0]) if val else 0.0`: empty token list gives `0.0`; a token
`float` rejects (e.g. `"."` or `"1.2.3"`) raises `ValueError`. -/
def convTok : List String → Except String ℚ
  | [] => .ok 0
  | tok :: _ =>
    match parsePyFloat tok with
    | some q => .ok q
    | none => .error "ValueError: could not convert string to float"

/-- Index of the last element satisfying the test (the Python column scan
keeps overwriting `tax_col`/`total_col`, so the last match wins). -/
def lastIdxWith (l : List String) (p : String → Bool) : Option ℕ :=
  ((l.enum.filter (fun q => p q.2)).getLast?).map (fun q => q.1)

/-- Header cell naming a tax-amount column (`"tax" in c and "amount" in c`). -/
def isTaxHeader (s : String) : Bool :=
  containsSubstr s "tax" && containsSubstr s "amount"

/-- Header cell naming a total-amount column. -/
def isTotalHeader (s : String) : Bool :=
  containsSubstr s "total" && containsSubstr s "amount"

/-- Does a table's header row (first row surviving `dropna`) name both a
tax-amount and a total-amount column? -/
def headerHasBoth (t : Table) : Bool :=
  match dropAllNone (padTable t) with
  | [] => false
  | hrow :: _ =>
    let hs := hrow.map (fun c => pyLower (pyStr c))
    (lastIdxWith hs isTaxHeader).isSome && (lastIdxWith hs isTotalHeader).isSome

/-- One page of `extract_totals_amazon`: `none` means the Python loop
moves on to the next page; `some r` means the function returns with `r`
(which may itself be a raised exception, modelled as `.error`). -/
def amazonPage (ts : List Table) : Option (Except String (ℚ × ℚ)) :=
  if ts.isEmpty then none
  else
    let t := maxByLen ts
    if maxCols t < 6 then none
    else
      match dropAllNone (padTable t) with
      | [] => some (.error "IndexError: df.iloc[0] on an empty frame")
      | hdr :: data =>
        let hs := hdr.map (fun c => pyLower (pyStr c))
        match lastIdxWith hs isTaxHeader, lastIdxWith hs isTotalHeader with
        | some ti, some oi =>
          match data.find? (fun row =>
              row.any (fun c => containsSubstr (pyLower (pyStr c)) "total")) with
          | some row =>
            some (do
              let tv ← convTok (findNumDot (pyStr (row.getD ti none)))
              let av ← convTok (findNumDot (pyStr (row.getD oi none)))
              pure (tv, av))
          | none => none
        | _, _ => some (.ok (0, 0))

/-- `extractors_amazon.py::extract_totals_amazon` over the pages of a
document. -/
def extract_totals_amazon : List (List Table) → Except String (ℚ × ℚ)
  | [] => .ok (0, 0)
  | p :: rest =>
    match amazonPage p with
    | some r => r
    | none => extract_totals_amazon rest

/-! ## Geometric text clusterer (`extract_cluster_text_amazon` /
`extract_cluster_text`): the glyph-centroid normalization -/

/-- One character glyph with its bounding box (`page.chars`). -/
structure Glyph where
  x0 : ℚ
  x1 : ℚ
  top : ℚ
  bottom : ℚ
  text : String
  deriving DecidableEq, Repr

/-- `x = (ch["x0"] + ch["x1"]) / 2`. -/
def centroidX (g : Glyph) : ℚ := (g.x0 + g.x1) / 2

/-- `y = (ch["top"] + ch["bottom"]) / 2`. -/
def centroidY (g : Glyph) : ℚ := (g.top + g.bottom) / 2

/-- `numpy` mean of a coordinate list. -/
def qmean (l : List ℚ) : ℚ := l.sum / l.length

/-- `numpy` population variance (`ddof = 0`); `points.std(axis=0)` is its
square root, so the per-axis divisor of the z-score normalization
`(points - mean) / std` is zero exactly when this variance is zero. -/
def qvar (l : List ℚ) : ℚ :=
  ((l.map (fun x => (x - qmean l) * (x - qmean l))).sum) / l.length

/-! ## Flipkart line items (`extractors_flipkart.py::extract_line_items`) -/

/-- Fuelled scanner for `re.findall(r"\d+\.\d+|\d+", line)`: at a digit,
greedily take the digit run, extend over `.` plus a following digit run
when possible (the first alternative), otherwise emit the digit run alone;
scanning resumes after the match. Fuel = input length keeps the recursion
structural so the kernel can evaluate it. -/
def scanNumsF : ℕ → List Char → List String
  | 0, _ => []
  | _, [] => []
  | fuel + 1, c :: rest =>
    if c.isDigit then
      let ds := rest.takeWhile Char.isDigit
      let r1 := rest.dropWhile Char.isDigit
      match r1 with
      | '.' :: r2 =>
        let fs := r2.takeWhile Char.isDigit
        if fs.isEmpty then
          String.mk (c :: ds) :: scanNumsF fuel r1
        else
          String.mk (c :: ds ++ '.' :: fs) ::
            scanNumsF fuel (r2.dropWhile Char.isDigit)
      | _ =>
        String.mk (c :: ds) :: scanNumsF fuel r1
    else scanNumsF fuel rest

/-- `re.findall(r"\d+\.\d+|\d+", line)`. -/
def findNums (s : String) : List String := scanNumsF s.data.length s.data

/-- One pending row of the Flipkart line scan: accumulated description
lines and the trailing 6 numeric tokens. -/
structure FRow where
  desc : List String
  nums : List String
  deriving DecidableEq, Repr

/-- One iteration of the line loop: a line with at least 6 numeric tokens
closes a row (keeping the last 6 tokens, `nums[-6:]`) and resets the
description accumulator; any other line is accumulated as description. -/
def fstep (acc : List FRow × List String) (line : String) :
    List FRow × List String :=
  let ns := findNums line
  if 6 ≤ ns.length then
    (acc.1 ++ [⟨acc.2, ns.drop (ns.length - 6)⟩], [])
  else (acc.1, acc.2 ++ [line])

/-- The full line loop of `extract_line_items`. -/
def flipkartRows (lines : List String) : List FRow × List String :=
  lines.foldl fstep ([], [])

/-- One Flipkart line item (the values stay the raw numeric tokens, as in
the source DataFrame). -/
structure FItem where
  slNo : ℕ
  description : String
  unitPrice : String
  discount : String
  qty : String
  netAmount : String
  taxRate : String
  taxType : String
  taxAmount : String
  totalAmount : String
  deriving DecidableEq, Repr

/-- Python `" ".join(d)`. -/
def joinSp (l : List String) : String := String.intercalate " " l

/-- The item built from one row (1-based index `i` from `enumerate`);
shipping/handling rows are dropped but still consume their index. The
positional token order is `qty, unit_price, discount, net, tax, total`. -/
def mkFItem (i : ℕ) (r : FRow) : Option FItem :=
  let fd := joinSp r.desc
  if containsSubstr (pyLower fd) "shipping" ||
      containsSubstr (pyLower fd) "handling" then none
  else
    some
      { slNo := i
        description := fd
        unitPrice := r.nums.getD 1 ""
        discount := r.nums.getD 2 ""
        qty := r.nums.getD 0 ""
        netAmount := r.nums.getD 3 ""
        taxRate := ""
        taxType := "IGST"
        taxAmount := r.nums.getD 4 ""
        totalAmount := r.nums.getD 5 "" }

/-- The item loop over the collected rows. -/
def flipkartItems (rows : List FRow) : List FItem :=
  (rows.enum).filterMap (fun p => mkFItem (p.1 + 1) p.2)

/-- The Flipkart line-item parser on the flattened text lines. -/
def lineItemsOfLines (lines : List String) : List FItem :=
  flipkartItems (flipkartRows lines).1

/-- Cell flattening of `extract_line_items`: every truthy cell of every
row, split on newlines, in row-major order. -/
def flattenTableLines (t : Table) : List String :=
  t.flatMap (fun row =>
    ((row.filterMap id).filter (fun s => !s.data.isEmpty)).flatMap
      (fun cell => cell.splitOn "\n"))

/-- `extractors_flipkart.py::extract_line_items`: first page, first table
(an empty document would raise at `pdf.pages[0]` in Python; no claim
reaches that case). -/
def extract_line_items (pages : List (List Table)) : List FItem :=
  match pages with
  | [] => []
  | p :: _ =>
    match p with
    | [] => []
    | t :: _ => lineItemsOfLines (flattenTableLines t)

/-! ## The Flipkart `TOTAL PRICE` regex (`extract_fields`) -/

/-- The regex character class `[:\s]` (colon or whitespace). -/
def classColonWS (c : Char) : Bool := c == ':' || isSpaceChar c

/-- The character class `[\\d.]` of the source pattern
`TOTAL\s*PRICE[:\s]*([\\d.]+)`: inside a raw-string character class the
double backslash is a literal backslash, so the class holds a backslash,
the letter d (plus D under `re.I`), and the dot — it contains no digit. -/
def classBackslashD (c : Char) : Bool :=
  c == '\\' || c == 'd' || c == 'D' || c == '.'

/-- Case-insensitive literal match returning the remaining input (the
pattern is given lowercased). -/
def matchCI : List Char → List Char → Option (List Char)
  | [], s => some s
  | _ :: _, [] => none
  | p :: ps, c :: cs => if lowerChar c == p then matchCI ps cs else none

/-- The regex `TOTAL\s*PRICE[:\s]*([\\d.]+)` attempted at one position.
`[:\s]` and `[\\d.]` are disjoint classes, so the greedy `[:\s]*` needs no
backtracking: skip the maximal colon/whitespace run, then the capture
group is the maximal nonempty `[\\d.]+` run. -/
def matchTotalPriceHere (s : List Char) : Option (List Char) :=
  match matchCI ['t', 'o', 't', 'a', 'l'] s with
  | none => none
  | some r1 =>
    match matchCI ['p', 'r', 'i', 'c', 'e'] (r1.dropWhile isSpaceChar) with
    | none => none
    | some r3 =>
      let g := (r3.dropWhile classColonWS).takeWhile classBackslashD
      if g.isEmpty then none else some g

/-- `re.search`: leftmost matching position. -/
def searchTotalPrice : List Char → Option (List Char)
  | [] => none
  | c :: rest =>
    match matchTotalPriceHere (c :: rest) with
    | some g => some g
    | none => searchTotalPrice rest

/-- The `total_amount` value set by `extract_fields` via `grab`:
`m.group(1).strip()` on a match, `""` otherwise. -/
def totalAmountField (cluster : String) : String :=
  match searchTotalPrice cluster.data with
  | some g => String.mk (trimChars g)
  | none => ""

/-- The ten digit characters. -/
def digitChars : List Char :=
  ['0', '1', '2', '3', '4', '5', '6', '7', '8', '9']

/-! ## Theorems -/

/-- Claim C1: a lowercased text containing both `"zomato hyperpure"` and
`"restaurant"` is classified `blinkit` (the first rule wins), never
`zomato`; and a text on which all five ordered rules fail yields `none`. -/
theorem claim_c1 :
    (∀ t : String, containsSubstr t "zomato hyperpure" = true →
      containsSubstr t "restaurant" = true →
      detect_brand t = some "blinkit" ∧ detect_brand t ≠ some "zomato") ∧
    (∀ t : String, ruleBlinkit t = false → ruleFlipkart t = false →
      ruleAmazon t = false → ruleInstamart t = false → ruleZomato t = false →
      detect_brand t = none) := by
  constructor
  · intro t h1 _h2
    have hb : ruleBlinkit t = true := by
      simp [ruleBlinkit, h1]
    refine ⟨by simp [detect_brand, hb], ?_⟩
    simp [detect_brand, hb]
  · intro t h1 h2 h3 h4 h5
    simp [detect_brand, h1, h2, h3, h4, h5]

/-- Witness for C1 at concrete inputs. -/
theorem claim_c1_witness :
    detect_brand "zomato hyperpure pvt ltd restaurant order" = some "blinkit" ∧
    detect_brand "some random receipt" = none :=
  ⟨(claim_c1.1 "zomato hyperpure pvt ltd restaurant order" (by decide) (by decide)).1,
   claim_c1.2 "some random receipt" (by decide) (by decide) (by decide)
     (by decide) (by decide)⟩

/-- Claim C2: `convert_to_float` never raises and coerces as specified:
falsy values (including `None` and `""`) give `0.0`, failed numeric parses
give `0.0`, and `"12.5"` parses to `12.5`; at the validator level the
spec's two examples compute as stated. -/
theorem claim_c2 :
    (∀ v : RawVal, isFalsy v = true → convert_to_float v = 0) ∧
    (∀ v : RawVal, pyFloat v = none → convert_to_float v = 0) ∧
    convert_to_float (RawVal.vstr "12.5") = 25 / 2 ∧
    convert_to_float (RawVal.vstr "abc") = 0 ∧
    convert_to_float RawVal.vnone = 0 ∧
    ((validateInvoice [("total_tax", RawVal.vstr "abc"),
        ("total_amount", RawVal.vnone)]).toOption.map
      (fun r => (r.total_tax, r.total_amount))) = some (0, 0) ∧
    ((validateInvoice [("total_tax", RawVal.vstr "12.5")]).toOption.map
      (fun r => r.total_tax)) = some (25 / 2) := by
  refine ⟨?_, ?_, ?_, ?_, ?_, ?_, ?_⟩
  · intro v h
    simp [convert_to_float, h]
  · intro v h
    simp only [convert_to_float, h, Option.getD_none]
    split <;> rfl
  · simp +decide [convert_to_float, isFalsy, pyFloat, parsePyFloat, parseDecCore,
      trimChars, digitsVal]
    norm_num
  · simp +decide [convert_to_float, isFalsy, pyFloat, parsePyFloat, parseDecCore,
      trimChars]
  · rfl
  · simp +decide [validateInvoice, strKeys, plainStrOk, lookupF, strField,
      optStrField, numFieldV, convert_to_float, isFalsy, pyFloat, parsePyFloat,
      parseDecCore, trimChars, digitsVal, Except.toOption]
  · simp +decide [validateInvoice, strKeys, plainStrOk, lookupF, strField,
      optStrField, numFieldV, convert_to_float, isFalsy, pyFloat, parsePyFloat,
      parseDecCore, trimChars, digitsVal, Except.toOption]
    norm_num

/-- Witness for C2: the two hypothesised clauses applied at concrete
values (`0.0` is falsy; `"xy"` fails the numeric parse). -/
theorem claim_c2_witness :
    convert_to_float (RawVal.vnum 0) = 0 ∧
    convert_to_float (RawVal.vstr "xy") = 0 :=
  ⟨claim_c2.1 (RawVal.vnum 0) (by decide),
   claim_c2.2.1 (RawVal.vstr "xy") (by decide)⟩

/-- The `pre=True` validator is the identity on numbers (helper shared by
the validator claims). -/
theorem convert_to_float_num (q : ℚ) : convert_to_float (RawVal.vnum q) = q := by
  by_cases h : q = 0
  · simp [convert_to_float, isFalsy, pyFloat, h]
  · simp [convert_to_float, isFalsy, pyFloat, h]

/-- Re-validating the field values of an already validated record gives
back the same record (helper for C9). -/
theorem revalidateInvoice (r : InvoiceData) :
    validateInvoice (toFieldMap r) = Except.ok r := by
  rcases r with ⟨it, inum, idate, onum, od, sn, sa, si, sg, sp, fl, ba, sha,
    bsc, ssc, ps, pd, idet, aw, tt, ta, rc⟩
  cases od <;>
    simp +decide [validateInvoice, toFieldMap, strKeys, plainStrOk, lookupF,
      List.lookup, strField, optStrField, numFieldV, convert_to_float_num]

/-- Claim C3 counterexample: feeding the recognized string field
`order_date` the value `None` produces a record whose `order_date` is
`None` (the field is declared `Optional[str]`), not the empty string: a
string field of a produced record does hold a null. -/
theorem claim_c3_counterexample :
    orderDateOf (validateInvoice [("order_date", RawVal.vnone)]) = some none ∧
    some (none : Option String) ≠ some (some "") := by
  constructor
  · decide
  · decide

/-- Claim C3 (amended): every record the validator produces has its two
numeric fields equal to the coerced input (missing/invalid input gives
`0.0`), and every plain string field holds a string; the one
`Optional[str]` field `order_date` is `None` exactly when the input
explicitly maps it to `None` (otherwise it defaults to `""`). -/
theorem claim_c3_amended (m : FieldMap) (r : InvoiceData)
    (h : validateInvoice m = Except.ok r) :
    r.total_tax = numFieldV m "total_tax" ∧
    r.total_amount = numFieldV m "total_amount" ∧
    (r.order_date = none ↔ lookupF m "order_date" = some RawVal.vnone) := by
  unfold validateInvoice at h
  split at h
  · injection h with h2
    subst h2
    refine ⟨rfl, rfl, ?_⟩
    unfold optStrField
    cases hl : lookupF m "order_date" with
    | none => simp
    | some v => cases v <;> simp
  · exact Except.noConfusion h

/-- The record produced by validating `[("order_date", None)]`. -/
def c3Rec : InvoiceData :=
  ⟨"Tax Invoice", "", "", "", none, "", "", "", "", "", "", "", "", "", "",
   "", "", "", "", 0, 0, "No"⟩

/-- Witness for the amended C3 at a concrete field map. -/
theorem claim_c3_witness :
    c3Rec.total_tax = numFieldV [("order_date", RawVal.vnone)] "total_tax" ∧
    c3Rec.total_amount = numFieldV [("order_date", RawVal.vnone)] "total_amount" ∧
    (c3Rec.order_date = none ↔
      lookupF [("order_date", RawVal.vnone)] "order_date" = some RawVal.vnone) :=
  claim_c3_amended [("order_date", RawVal.vnone)] c3Rec (by rfl)

/-- Claim C9: schema validation is deterministic and idempotent — a second
validation of the same field map returns the same record, and re-validating
the produced record's own field values returns it unchanged. -/
theorem claim_c9 (m : FieldMap) (r : InvoiceData)
    (h : validateInvoice m = Except.ok r) :
    validateInvoice m = Except.ok r ∧
    validateInvoice (toFieldMap r) = Except.ok r :=
  ⟨h, revalidateInvoice r⟩

/-- Concrete field map for the C9 witness. -/
def c9Map : FieldMap := [("seller_name", RawVal.vstr "ACME Traders")]

/-- The record produced by validating `c9Map`. -/
def c9Rec : InvoiceData :=
  ⟨"Tax Invoice", "", "", "", some "", "ACME Traders", "", "", "", "", "",
   "", "", "", "", "", "", "", "", 0, 0, "No"⟩

/-- Witness for C9 at a concrete field map. -/
theorem claim_c9_witness :
    validateInvoice c9Map = Except.ok c9Rec ∧
    validateInvoice (toFieldMap c9Rec) = Except.ok c9Rec :=
  claim_c9 c9Map c9Rec (by rfl)

/-- A Zomato table with a line item, a `"Total Value"` row, and a further
line item below it. -/
def zTableC4 : Table :=
  [[some "Particulars", some "Gross value", some "Discount", some "Net value",
    some "CGST rate", some "CGST (INR)", some "SGST rate", some "SGST (INR)",
    some "Total"],
   [some "Item A", some "100", some "0", some "100", some "2.5%",
    some "2.50", some "2.5%", some "2.50", some "105"],
   [some "Total Value", none, none, some "100", none, none, none, none,
    some "105"],
   [some "Item B", some "50", some "0", some "50", some "2.5%",
    some "1.25", some "2.5%", some "1.25", some "52.5"]]

/-- Claim C4 counterexample: in `zTableC4` the `"Total Value"` row is
followed by the row `"Item B"`; the claim says extraction halts at the
totals row, yet `"Item B"` appears in the returned line-item table (the
loop body uses `continue`, not `break`), while net/total/tax are indeed
taken from the totals row. -/
theorem claim_c4_counterexample :
    ((extract_table_and_totals [[zTableC4]]).items.map (fun it => it.descr)) =
      [some "Item A", some "Item B"] ∧
    (extract_table_and_totals [[zTableC4]]).net = 100 ∧
    (extract_table_and_totals [[zTableC4]]).tax = 5 ∧
    (extract_table_and_totals [[zTableC4]]).total = 105 := by
  refine ⟨by decide, by decide, ?_, by decide⟩
  have h1 : (extract_table_and_totals [[zTableC4]]).tax =
      pyRound2 (((105 : ℕ) : ℚ) - ((100 : ℕ) : ℚ)) := by rfl
  rw [h1]
  norm_num [pyRound2, halfEvenInt]

/-- Claim C4 (amended): a row whose particulars cell contains
`"total value"` sets net and total from that row and tax to
`round(total - net, 2)`, and is not itself appended as a line item — but
the loop continues: rows after it are still processed (the code uses
`continue`, not `break`). -/
theorem claim_c4_amended (cols : ZCols) (acc : ZAcc) (row : Row)
    (pre suf : List Row)
    (h : containsSubstr (pyLower (pyStr (cellAt row cols.part))) "total value"
      = true) :
    (zstep cols acc row).items = acc.items ∧
    (zstep cols acc row).net = safe_float (cellAt row cols.net) ∧
    (zstep cols acc row).total = safe_float (cellAt row cols.total) ∧
    (zstep cols acc row).tax =
      pyRound2 (safe_float (cellAt row cols.total) -
        safe_float (cellAt row cols.net)) ∧
    processRows cols (pre ++ row :: suf) acc =
      processRows cols suf (zstep cols (processRows cols pre acc) row) := by
  refine ⟨?_, ?_, ?_, ?_, ?_⟩
  · simp [zstep, h]
  · simp [zstep, h]
  · simp [zstep, h]
  · simp [zstep, h]
  · simp [processRows, List.foldl_append]

/-- Concrete columns for the C4 witness. -/
def zColsW : ZCols :=
  ⟨some 0, some 1, some 2, some 3, some 4, some 5, some 6, some 7, some 8⟩

/-- Concrete accumulator for the C4 witness. -/
def zAccW : ZAcc := ⟨[], 1, 0, 0, 0⟩

/-- Concrete totals row for the C4 witness. -/
def zRowW : Row :=
  [some "Total Value", none, none, some "200", none, none, none, none,
   some "210"]

/-- If a fold of `max` reaches `n`, either the seed already did or some
element does (helper for the Amazon gate). -/
theorem exists_of_foldl_max (l : List ℕ) (a n : ℕ) (h : n ≤ l.foldl max a) :
    n ≤ a ∨ ∃ x ∈ l, n ≤ x := by
  induction l generalizing a with
  | nil => exact Or.inl h
  | cons x xs ih =>
    rcases ih (max a x) h with h1 | ⟨y, hy, hny⟩
    · rcases le_max_iff.mp h1 with ha | hx
      · exact Or.inl ha
      · exact Or.inr ⟨x, List.mem_cons_self x xs, hx⟩
    · exact Or.inr ⟨y, List.mem_cons_of_mem _ hy, hny⟩

/-- The table picked by `max(tables, key=len)` is one of the tables. -/
theorem foldl_pick_mem (l : List Table) (b : Table) :
    l.foldl (fun best u => if u.length > best.length then u else best) b = b ∨
    l.foldl (fun best u => if u.length > best.length then u else best) b ∈ l := by
  induction l generalizing b with
  | nil => exact Or.inl rfl
  | cons y ys ih =>
    simp only [List.foldl_cons]
    rcases ih (if y.length > b.length then y else b) with h | h
    · rw [h]
      by_cases hy : y.length > b.length
      · simp [hy]
      · simp [hy]
    · exact Or.inr (List.mem_cons_of_mem _ h)

/-- `maxByLen` of a nonempty table list is a member of it. -/
theorem maxByLen_mem (ts : List Table) (h : ts.isEmpty = false) :
    maxByLen ts ∈ ts := by
  match ts, h with
  | t :: rest, _ =>
    have hstep : maxByLen (t :: rest) =
        rest.foldl (fun best u => if u.length > best.length then u else best) t := by
      unfold maxByLen
      simp
    rw [hstep]
    rcases foldl_pick_mem rest t with h1 | h1
    · rw [h1]; exact List.mem_cons_self _ _
    · exact List.mem_cons_of_mem _ h1

/-- A table with at least 6 truthy cells in some row keeps that row across
`dropna(how="all")`, so the frame is nonempty (helper for C6: the
`df.iloc[0]` access cannot raise once the `max_cols` gate passed). -/
theorem dropAllNone_pad_ne_nil (t : Table) (h : 6 ≤ maxCols t) :
    dropAllNone (padTable t) ≠ [] := by
  obtain ⟨r, hr, hlen⟩ : ∃ r ∈ t, 6 ≤ (r.filter truthyCell).length := by
    rcases exists_of_foldl_max _ 0 6 h with h6 | ⟨x, hx, hnx⟩
    · omega
    · obtain ⟨r, hr, hrx⟩ := List.mem_map.mp hx
      exact ⟨r, hr, by rw [hrx]; exact hnx⟩
  have hfil : r.filter truthyCell ≠ [] := by
    intro hnil
    rw [hnil] at hlen
    simp at hlen
  obtain ⟨c, hc⟩ := List.exists_mem_of_ne_nil _ hfil
  have hcr : c ∈ r := (List.mem_filter.mp hc).1
  have hct : truthyCell c = true := (List.mem_filter.mp hc).2
  have hcsome : c.isSome = true := by
    cases c with
    | none => simp [truthyCell] at hct
    | some s => rfl
  have hpad : padRow (ncols t) r ∈ padTable t := List.mem_map_of_mem _ hr
  have hany : (padRow (ncols t) r).any Option.isSome = true :=
    List.any_eq_true.mpr ⟨c, List.mem_append_left _ hcr, hcsome⟩
  intro hnil
  have hmem : padRow (ncols t) r ∈ dropAllNone (padTable t) :=
    List.mem_filter.mpr ⟨hpad, hany⟩
  rw [hnil] at hmem
  exact absurd hmem (List.not_mem_nil _)

/-- A page all of whose tables lack the header pair either falls through
or returns `(0.0, 0.0)` (helper for C6). -/
theorem amazonPage_of_noHeader (ts : List Table)
    (h : ∀ t ∈ ts, headerHasBoth t = false) :
    amazonPage ts = none ∨ amazonPage ts = some (Except.ok (0, 0)) := by
  by_cases he : ts.isEmpty
  · left; simp [amazonPage, he]
  · have he' : ts.isEmpty = false := by simpa using he
    by_cases hc : maxCols (maxByLen ts) < 6
    · left; simp [amazonPage, he', hc]
    · have hne : dropAllNone (padTable (maxByLen ts)) ≠ [] :=
        dropAllNone_pad_ne_nil _ (by omega)
      have hb : headerHasBoth (maxByLen ts) = false := h _ (maxByLen_mem ts he')
      cases hrows : dropAllNone (padTable (maxByLen ts)) with
      | nil => exact absurd hrows hne
      | cons hdr data =>
        unfold headerHasBoth at hb
        rw [hrows] at hb
        simp only [] at hb
        cases hta : lastIdxWith (hdr.map (fun c => pyLower (pyStr c))) isTaxHeader with
        | none =>
          right
          simp [amazonPage, he', hc, hrows, hta]
        | some ti =>
          cases hto : lastIdxWith (hdr.map (fun c => pyLower (pyStr c))) isTotalHeader with
          | none =>
            right
            simp [amazonPage, he', hc, hrows, hta, hto]
          | some oi =>
            exfalso
            rw [hta, hto] at hb
            simp at hb

/-- Claim C6: if no table on any page has a header row naming both a
tax-amount and a total-amount column, `extract_totals_amazon` returns
`(0.0, 0.0)` and raises nothing (`.ok`). -/
theorem claim_c6 (pages : List (List Table))
    (h : ∀ p ∈ pages, ∀ t ∈ p, headerHasBoth t = false) :
    extract_totals_amazon pages = Except.ok (0, 0) := by
  induction pages with
  | nil => rfl
  | cons p rest ih =>
    have hrest : ∀ q ∈ rest, ∀ t ∈ q, headerHasBoth t = false :=
      fun q hq => h q (List.mem_cons_of_mem _ hq)
    unfold extract_totals_amazon
    rcases amazonPage_of_noHeader p (h p (List.mem_cons_self _ _)) with hp | hp
    · rw [hp]
      exact ih hrest
    · rw [hp]

/-- A 6-column table whose header names no tax/total-amount columns. -/
def amzTableW : Table :=
  [[some "Description", some "Qty", some "Rate", some "Discount",
    some "Net", some "Gross"],
   [some "Item", some "1", some "10", some "0", some "10", some "10"]]

/-- Witness for C6 at a concrete document. -/
theorem claim_c6_witness :
    extract_totals_amazon [[amzTableW]] = Except.ok (0, 0) :=
  claim_c6 [[amzTableW]] (by decide)

/-- The spec's synthetic Amazon-shaped table: 4 columns only. -/
def amzTableC5 : Table :=
  [[some "Description", some "Qty", some "Tax Amount", some "Total Amount"],
   [some "Total", some "5", some "12.5", some "112.5"]]

/-- Claim C5 counterexample: the spec's 4-column synthetic table is
rejected by the `max_cols < 6` gate (its largest truthy-cell count is 4),
so `extract_totals_amazon` returns `(0.0, 0.0)`, not `(12.5, 112.5)`. -/
theorem claim_c5_counterexample :
    extract_totals_amazon [[amzTableC5]] = Except.ok (0, 0) ∧
    (Except.ok ((0 : ℚ), (0 : ℚ)) : Except String (ℚ × ℚ)) ≠
      Except.ok ((25 / 2 : ℚ), (225 / 2 : ℚ)) := by
  constructor
  · rfl
  · intro hcontra
    have h2 := Except.ok.inj hcontra
    have h3 : (0 : ℚ) = 25 / 2 := congrArg Prod.fst h2
    norm_num at h3

/-- The same synthetic scenario widened to 6 truthy columns. -/
def amzTableC5w : Table :=
  [[some "Description", some "Qty", some "Unit Price", some "Net Amount",
    some "Tax Amount", some "Total Amount"],
   [some "Total", some "5", some "100", some "100", some "12.5",
    some "112.5"]]

/-- Claim C5 (amended): once the synthetic table has at least 6 truthy
columns (the gate the spec scenario overlooked), the row containing
`"Total"` yields `(12.5, 112.5)` from the tax/total-amount columns. -/
theorem claim_c5_amended_eval :
    extract_totals_amazon [[amzTableC5w]] =
      Except.ok ((25 / 2 : ℚ), (225 / 2 : ℚ)) := by
  have h1 : extract_totals_amazon [[amzTableC5w]] =
      Except.ok (((12 : ℕ) : ℚ) + ((5 : ℕ) : ℚ) / ((10 : ℚ) ^ (1 : ℕ)),
        ((112 : ℕ) : ℚ) + ((5 : ℕ) : ℚ) / ((10 : ℚ) ^ (1 : ℕ))) := by rfl
  rw [h1]
  simp only [Except.ok.injEq, Prod.mk.injEq]
  constructor <;> norm_num

/-- Witness for the amended C4 at a concrete totals row. -/
theorem claim_c4_amended_witness :
    (zstep zColsW zAccW zRowW).items = zAccW.items ∧
    (zstep zColsW zAccW zRowW).net = safe_float (cellAt zRowW zColsW.net) ∧
    (zstep zColsW zAccW zRowW).total = safe_float (cellAt zRowW zColsW.total) ∧
    (zstep zColsW zAccW zRowW).tax =
      pyRound2 (safe_float (cellAt zRowW zColsW.total) -
        safe_float (cellAt zRowW zColsW.net)) ∧
    processRows zColsW ([] ++ zRowW :: []) zAccW =
      processRows zColsW [] (zstep zColsW (processRows zColsW [] zAccW) zRowW) :=
  claim_c4_amended zColsW zAccW zRowW [] [] (by decide)

/-- Claim C7 (code bug): for a page holding exactly one glyph, both
per-axis variances of the centroid set are zero, so the z-score
normalization `(points - mean) / points.std(axis=0)` divides by zero
(numpy yields `0/0 = NaN` and the density clusterer then rejects the NaN
input with an error) — contradicting the spec's requirement that fewer
than 2 glyphs must never divide by zero or raise. This holds for both the
Amazon clusterer and both branches of the Flipkart variant, which use the
same per-axis z-score. -/
theorem claim_c7 (g : Glyph) :
    qvar [centroidX g] = 0 ∧ qvar [centroidY g] = 0 := by
  constructor <;> simp [qvar, qmean]

/-- Description-only lines (fewer than 6 numeric tokens) just accumulate:
the fold leaves the closed rows unchanged and appends the lines to the
pending description (helper for C8). -/
theorem foldl_fstep_desc (pre : List String) :
    ∀ rs ds, (∀ l ∈ pre, (findNums l).length < 6) →
      pre.foldl fstep (rs, ds) = (rs, ds ++ pre) := by
  induction pre with
  | nil =>
    intro rs ds _
    simp
  | cons l ls ih =>
    intro rs ds h
    have hl : ¬ 6 ≤ (findNums l).length := by
      have := h l (List.mem_cons_self _ _)
      omega
    have hstep : fstep (rs, ds) l = (rs, ds ++ [l]) := by
      simp [fstep, hl]
    simp only [List.foldl_cons]
    rw [hstep, ih rs (ds ++ [l]) (fun x hx => h x (List.mem_cons_of_mem _ hx))]
    simp

/-- Claim C8: any flattened line whose numeric tokens number at least 6
and end in `["2","100.0","10.0","180.0","18.0","198.0"]`, preceded by any
description lines (each with fewer than 6 numeric tokens, and jointly not
a shipping/handling charge), produces exactly one item with
qty=2, unit_price=100.0, discount=10.0, net=180.0, tax=18.0, total=198.0 —
the last six numbers in that fixed positional order. -/
theorem claim_c8 (pre : List String) (line : String)
    (h1 : ∀ l ∈ pre, (findNums l).length < 6)
    (h2 : 6 ≤ (findNums line).length)
    (h3 : (findNums line).drop ((findNums line).length - 6) =
      ["2", "100.0", "10.0", "180.0", "18.0", "198.0"])
    (h4 : containsSubstr (pyLower (joinSp pre)) "shipping" = false)
    (h5 : containsSubstr (pyLower (joinSp pre)) "handling" = false) :
    lineItemsOfLines (pre ++ [line]) =
      [{ slNo := 1, description := joinSp pre, unitPrice := "100.0",
         discount := "10.0", qty := "2", netAmount := "180.0", taxRate := "",
         taxType := "IGST", taxAmount := "18.0", totalAmount := "198.0" }] := by
  unfold lineItemsOfLines flipkartRows
  rw [List.foldl_append, foldl_fstep_desc pre [] [] h1]
  have hstep : fstep ([], [] ++ pre) line =
      ([⟨pre, ["2", "100.0", "10.0", "180.0", "18.0", "198.0"]⟩], []) := by
    simp [fstep, h2, h3]
  simp only [List.foldl_cons, List.foldl_nil, hstep]
  unfold flipkartItems
  simp [mkFItem, h4, h5]

/-- Witness for C8 at one description line plus one numeric line. -/
theorem claim_c8_witness :
    lineItemsOfLines ["Widget deluxe", "2 100.0 10.0 180.0 18.0 198.0"] =
      [{ slNo := 1, description := joinSp ["Widget deluxe"],
         unitPrice := "100.0", discount := "10.0", qty := "2",
         netAmount := "180.0", taxRate := "", taxType := "IGST",
         taxAmount := "18.0", totalAmount := "198.0" }] :=
  claim_c8 ["Widget deluxe"] "2 100.0 10.0 180.0 18.0 198.0"
    (by decide) (by decide) (by decide) (by decide) (by decide)

/-- Digits never fall in the `[\\d.]` class (helper for C10). -/
theorem digit_not_classBD : ∀ c ∈ digitChars, classBackslashD c = false := by
  decide

/-- Digits never fall in the `[:\s]` class (helper for C10). -/
theorem digit_not_colonWS : ∀ c ∈ digitChars, classColonWS c = false := by
  decide

/-- Digit/dot characters never open the literal `total` (helper for
C10). -/
theorem numDot_not_t :
    ∀ c, c ∈ digitChars ∨ c = '.' → (lowerChar c == 't') = false := by
  intro c h
  rcases h with h | rfl
  · revert c
    decide
  · decide

/-- One failing position plus a failing remainder gives a failing search
(helper for C10). -/
theorem searchTP_cons_none (c : Char) (cs : List Char)
    (h1 : matchTotalPriceHere (c :: cs) = none)
    (h2 : searchTotalPrice cs = none) :
    searchTotalPrice (c :: cs) = none := by
  unfold searchTotalPrice
  rw [h1, h2]

/-- The search fails on any digit/dot-only suffix (helper for C10). -/
theorem searchTP_none_of_numDot (l : List Char)
    (h : ∀ c ∈ l, c ∈ digitChars ∨ c = '.') :
    searchTotalPrice l = none := by
  induction l with
  | nil => rfl
  | cons c cs ih =>
    have hc : (lowerChar c == 't') = false :=
      numDot_not_t c (h c (List.mem_cons_self _ _))
    have hm : matchTotalPriceHere (c :: cs) = none := by
      unfold matchTotalPriceHere matchCI
      rw [hc]
      rfl
    exact searchTP_cons_none c cs hm
      (ih (fun x hx => h x (List.mem_cons_of_mem _ hx)))

/-- Membership survives `dropWhile` (helper for C10). -/
theorem mem_of_mem_dropWhile {p : Char → Bool} {c : Char} :
    ∀ {l : List Char}, c ∈ l.dropWhile p → c ∈ l := by
  intro l
  induction l with
  | nil => intro h; exact h
  | cons x xs ih =>
    intro h
    rw [List.dropWhile_cons] at h
    by_cases hx : p x
    · rw [if_pos hx] at h
      exact List.mem_cons_of_mem _ (ih h)
    · rw [if_neg hx] at h
      exact h

/-- Membership survives `strip` (helper for C10). -/
theorem mem_of_mem_trimChars {c : Char} {l : List Char}
    (h : c ∈ trimChars l) : c ∈ l := by
  unfold trimChars at h
  rw [List.mem_reverse] at h
  have h2 := mem_of_mem_dropWhile h
  rw [List.mem_reverse] at h2
  exact mem_of_mem_dropWhile h2

/-- A group captured by the total-price pattern at one position consists
only of `[\\d.]` characters (helper for C10). -/
theorem matchTPHere_group {s g : List Char}
    (h : matchTotalPriceHere s = some g) :
    ∀ c ∈ g, classBackslashD c = true := by
  unfold matchTotalPriceHere at h
  cases h1 : matchCI ['t', 'o', 't', 'a', 'l'] s with
  | none => rw [h1] at h; exact absurd h (by simp)
  | some r1 =>
    rw [h1] at h
    simp only [] at h
    cases h2 : matchCI ['p', 'r', 'i', 'c', 'e'] (r1.dropWhile isSpaceChar) with
    | none => rw [h2] at h; exact absurd h (by simp)
    | some r3 =>
      rw [h2] at h
      simp only [] at h
      split at h
      · exact absurd h (by simp)
      · have hg : (r3.dropWhile classColonWS).takeWhile classBackslashD = g :=
          Option.some.inj h
        intro c hc
        rw [← hg] at hc
        exact List.mem_takeWhile_imp hc

/-- A group found by the search consists only of `[\\d.]` characters
(helper for C10). -/
theorem searchTP_group :
    ∀ {l g : List Char}, searchTotalPrice l = some g →
      ∀ c ∈ g, classBackslashD c = true := by
  intro l
  induction l with
  | nil => intro g h; exact absurd h (by simp [searchTotalPrice])
  | cons x xs ih =>
    intro g h
    unfold searchTotalPrice at h
    cases hm : matchTotalPriceHere (x :: xs) with
    | some g0 =>
      rw [hm] at h
      have : g0 = g := Option.some.inj h
      subst this
      exact matchTPHere_group hm
    | none =>
      rw [hm] at h
      exact ih h

/-- Claim C10 counterexample: the cluster text
`"TOTAL PRICE: 12.5 | total price details"` does contain the label
`TOTAL PRICE` followed by the digits-and-dots amount `12.5`, yet
`extract_fields` sets `total_amount` to `"d"`, not `""`: the search skips
the digit-led first occurrence but matches the second `total price`, whose
following letter `d` lies inside the class `[\\d.]`. So the claim's
`total_amount = ""` conclusion fails at the claim's full generality. -/
theorem claim_c10_counterexample :
    containsSubstr "TOTAL PRICE: 12.5 | total price details"
      "TOTAL PRICE: 12.5" = true ∧
    totalAmountField "TOTAL PRICE: 12.5 | total price details" = "d" ∧
    ("d" : String) ≠ "" := by
  refine ⟨by decide, by decide, by decide⟩

/-- Claim C10 (amended): the class `[\\d.]` of the Flipkart total-price
pattern holds exactly backslash, `d`/`D` (case-insensitive `re.I`), and
the dot — no digit. Consequently, on every cluster text whatsoever, the
`total_amount` that `extract_fields` grabs never contains a digit — the
amount itself can never be captured (the documented extraction gap) — and
on a text that is the label `TOTAL PRICE: ` followed by a digit-led
digits-and-dots amount the pattern never matches at all, leaving
`total_amount` empty. (A further label occurrence followed by a
backslash/d/D/dot can still capture that junk run, as the counterexample
shows, so the empty-string conclusion does not extend to every text.) -/
theorem claim_c10_amended :
    (∀ c : Char, classBackslashD c = true ↔
      (c = '\\' ∨ c = 'd' ∨ c = 'D' ∨ c = '.')) ∧
    (∀ c ∈ digitChars, classBackslashD c = false) ∧
    (∀ cluster : String, ∀ c ∈ (totalAmountField cluster).data,
      c.isDigit = false) ∧
    (∀ (d : Char) (rest : List Char), d ∈ digitChars →
      (∀ c ∈ rest, c ∈ digitChars ∨ c = '.') →
      totalAmountField (String.mk ("TOTAL PRICE: ".data ++ d :: rest)) = "") := by
  have hiff : ∀ c : Char, classBackslashD c = true ↔
      (c = '\\' ∨ c = 'd' ∨ c = 'D' ∨ c = '.') := by
    intro c
    simp [classBackslashD, or_assoc]
  refine ⟨hiff, digit_not_classBD, ?_, ?_⟩
  · intro cluster c hc
    unfold totalAmountField at hc
    cases hs : searchTotalPrice cluster.data with
    | none =>
      rw [hs] at hc
      exact absurd hc (by simp)
    | some g =>
      rw [hs] at hc
      have hcg : c ∈ g := mem_of_mem_trimChars hc
      have hcls : classBackslashD c = true := searchTP_group hs c hcg
      rcases (hiff c).mp hcls with rfl | rfl | rfl | rfl <;> decide
  · intro d rest hd hrest
    have hcw : classColonWS d = false := digit_not_colonWS d hd
    have hbd : classBackslashD d = false := digit_not_classBD d hd
    have h0 : matchTotalPriceHere
        (['T', 'O', 'T', 'A', 'L', ' ', 'P', 'R', 'I', 'C', 'E', ':', ' ']
          ++ d :: rest) = none := by
      simp +decide [matchTotalPriceHere, matchCI, hcw, hbd,
        List.dropWhile, List.takeWhile]
    have hnum : searchTotalPrice (d :: rest) = none :=
      searchTP_none_of_numDot _ (by
        intro c hcmem
        rcases List.mem_cons.mp hcmem with rfl | hcmem
        · exact Or.inl hd
        · exact hrest c hcmem)
    have h1 : matchTotalPriceHere
        (['O', 'T', 'A', 'L', ' ', 'P', 'R', 'I', 'C', 'E', ':', ' ']
          ++ d :: rest) = none := by
      simp +decide [matchTotalPriceHere, matchCI]
    have h2 : matchTotalPriceHere
        (['T', 'A', 'L', ' ', 'P', 'R', 'I', 'C', 'E', ':', ' ']
          ++ d :: rest) = none := by
      simp +decide [matchTotalPriceHere, matchCI]
    have h3 : matchTotalPriceHere
        (['A', 'L', ' ', 'P', 'R', 'I', 'C', 'E', ':', ' ']
          ++ d :: rest) = none := by
      simp +decide [matchTotalPriceHere, matchCI]
    have h4 : matchTotalPriceHere
        (['L', ' ', 'P', 'R', 'I', 'C', 'E', ':', ' '] ++ d :: rest) = none := by
      simp +decide [matchTotalPriceHere, matchCI]
    have h5 : matchTotalPriceHere
        ([' ', 'P', 'R', 'I', 'C', 'E', ':', ' '] ++ d :: rest) = none := by
      simp +decide [matchTotalPriceHere, matchCI]
    have h6 : matchTotalPriceHere
        (['P', 'R', 'I', 'C', 'E', ':', ' '] ++ d :: rest) = none := by
      simp +decide [matchTotalPriceHere, matchCI]
    have h7 : matchTotalPriceHere
        (['R', 'I', 'C', 'E', ':', ' '] ++ d :: rest) = none := by
      simp +decide [matchTotalPriceHere, matchCI]
    have h8 : matchTotalPriceHere (['I', 'C', 'E', ':', ' '] ++ d :: rest)
        = none := by
      simp +decide [matchTotalPriceHere, matchCI]
    have h9 : matchTotalPriceHere (['C', 'E', ':', ' '] ++ d :: rest)
        = none := by
      simp +decide [matchTotalPriceHere, matchCI]
    have h10 : matchTotalPriceHere (['E', ':', ' '] ++ d :: rest) = none := by
      simp +decide [matchTotalPriceHere, matchCI]
    have h11 : matchTotalPriceHere ([':', ' '] ++ d :: rest) = none := by
      simp +decide [matchTotalPriceHere, matchCI]
    have h12 : matchTotalPriceHere ([' '] ++ d :: rest) = none := by
      simp +decide [matchTotalPriceHere, matchCI]
    have hsearch : searchTotalPrice
        (['T', 'O', 'T', 'A', 'L', ' ', 'P', 'R', 'I', 'C', 'E', ':', ' ']
          ++ d :: rest) = none :=
      searchTP_cons_none _ _ h0 (searchTP_cons_none _ _ h1
        (searchTP_cons_none _ _ h2 (searchTP_cons_none _ _ h3
          (searchTP_cons_none _ _ h4 (searchTP_cons_none _ _ h5
            (searchTP_cons_none _ _ h6 (searchTP_cons_none _ _ h7
              (searchTP_cons_none _ _ h8 (searchTP_cons_none _ _ h9
                (searchTP_cons_none _ _ h10 (searchTP_cons_none _ _ h11
                  (searchTP_cons_none _ _ h12 hnum))))))))))))
    unfold totalAmountField
    have hdata : (String.mk ("TOTAL PRICE: ".data ++ d :: rest)).data =
        ['T', 'O', 'T', 'A', 'L', ' ', 'P', 'R', 'I', 'C', 'E', ':', ' ']
          ++ d :: rest := rfl
    rw [hdata, hsearch]

/-- Witness for the amended C10: the digit clause at `'7'`, the
digit-free-output clause at the counterexample text, and the extraction
gap at the concrete amount `123.45`. -/
theorem claim_c10_amended_witness :
    classBackslashD '7' = false ∧
    Char.isDigit 'd' = false ∧
    totalAmountField (String.mk ("TOTAL PRICE: ".data ++ '1' :: "23.45".data))
      = "" :=
  ⟨claim_c10_amended.2.1 '7' (by decide),
   claim_c10_amended.2.2.1 "TOTAL PRICE: 12.5 | total price details" 'd'
     (by decide),
   claim_c10_amended.2.2.2 '1' "23.45".data (by decide) (by decide)⟩

end InvoiceX
